import Mathlib

/-!
Shallow embedding of the accessibility-tree form scanner / filler of
theorycraft-form/main.py and of the answer normalizer of
theorycraft-form/ai-form.py, together with proofs about the embedded
functions.

Modelling conventions.
* Python strings are Lean `String`s; a `None` that the source immediately
  coerces with `or ""` (names, values, roles) is modelled as `""`, and a
  `None` truthiness test on such a value becomes an `= ""` test.
* Python's `re.sub(r"\s+", " ", s).strip()` is modelled by splitting on
  whitespace characters and re-joining with single spaces; `pyIsSpace`
  models the whitespace class of Python's `\s` on the code points that
  actually occur (ASCII whitespace plus the Unicode space separators).
* Python's string lowering / stripping / replacing are modelled by
  character-list functions (Python's `str.lower` is Unicode aware; the
  embedded `lower_str` lowers ASCII letters, which is exact on every
  string the source compares).
* All functions are executable so that concrete runs can be checked by
  `decide` / `rfl`.
-/

/-- Character class of Python's `\s` (str patterns): ASCII whitespace,
the C1 NEL, and the Unicode space separators that occur in the source
(NBSP, figure space, narrow NBSP, etc.). -/
def pyIsSpace (c : Char) : Bool :=
  c = ' ' || c = '\t' || c = '\n' || c = '\r' || c.toNat = 11 || c.toNat = 12 ||
  (28 ≤ c.toNat && c.toNat ≤ 31) || c.toNat = 133 || c.toNat = 160 ||
  c.toNat = 0x1680 || (0x2000 ≤ c.toNat && c.toNat ≤ 0x200a) ||
  c.toNat = 0x2028 || c.toNat = 0x2029 || c.toNat = 0x202f || c.toNat = 0x205f ||
  c.toNat = 0x3000

/-- Lowercase a string (ASCII letters), modelling `str.lower()` on the
ASCII data the source compares. -/
def lower_str (s : String) : String := ⟨s.data.map Char.toLower⟩

/-- Model of `str.strip()`: drop leading and trailing whitespace. -/
def py_strip (s : String) : String :=
  ⟨((s.data.dropWhile pyIsSpace).reverse.dropWhile pyIsSpace).reverse⟩

/-- Does `pat` occur at the head of the list (`str.startswith` on char lists)? -/
def list_starts_with : List Char → List Char → Bool
  | [], _ => true
  | _ :: _, [] => false
  | a :: as, b :: bs => a == b && list_starts_with as bs

/-- Does `needle` occur inside the list (Python's `in` on strings)? -/
def list_infix (needle : List Char) : List Char → Bool
  | [] => needle.isEmpty
  | c :: cs => list_starts_with needle (c :: cs) || list_infix needle cs

/-- Python's `needle in hay` on strings. -/
def str_contains (hay needle : String) : Bool := list_infix needle.data hay.data

/-- Fueled worker for `replace_list`; fuel `s.length` always suffices
because every step consumes at least one character. -/
def replace_list_fuel : Nat → List Char → List Char → List Char → List Char
  | 0, _, _, s => s
  | _ + 1, _, _, [] => []
  | f + 1, pat, rep, c :: cs =>
    if pat ≠ [] ∧ list_starts_with pat (c :: cs) then
      rep ++ replace_list_fuel f pat rep ((c :: cs).drop pat.length)
    else c :: replace_list_fuel f pat rep cs

/-- Model of Python's `str.replace`: replace every non-overlapping
occurrence of `pat` left to right, continuing after each replacement. -/
def replace_list (pat rep s : List Char) : List Char := replace_list_fuel s.length pat rep s

/-- Scan forward to the first `')'`; fail at end of input or at a
newline, because `.` in a Python regex does not match `'\n'`. -/
def close_paren_split : List Char → Option (List Char)
  | [] => none
  | ')' :: rest => some rest
  | '\n' :: _ => none
  | _ :: rest => close_paren_split rest

/-- Fueled worker for `drop_parens`; fuel `s.length` suffices because
every step consumes at least one character. -/
def drop_parens_fuel : Nat → List Char → List Char
  | 0, cs => cs
  | _ + 1, [] => []
  | f + 1, c :: rest =>
    if c = '(' then
      match close_paren_split rest with
      | some rest2 => drop_parens_fuel f rest2
      | none => '(' :: drop_parens_fuel f rest
    else c :: drop_parens_fuel f rest

/-- Model of `re.sub(r"\(.*?\)", "", s)`: delete each parenthesized
segment, matching lazily (first closing parenthesis) and skipping an
opening parenthesis that has no `')'` before the next newline. -/
def drop_parens (cs : List Char) : List Char := drop_parens_fuel cs.length cs

/-- Collapse whitespace runs to single spaces and strip the ends: the
model of `re.sub(r"\s+", " ", s).strip()`. -/
def collapse_ws (cs : List Char) : List Char :=
  List.intercalate [' '] ((cs.splitOnP pyIsSpace).filter (fun w => w ≠ []))

/-- The three space code points that `_norm_text` replaces explicitly
before collapsing (NBSP, narrow NBSP, figure space). -/
def NBSP_CHARS : List Char := ['\u00A0', '\u202F', '\u2007']

/-- Embedding of `_norm_text` (main.py): normalize NBSP variants to
plain spaces, collapse all whitespace runs to single spaces, strip. -/
def norm_text (s : String) : String :=
  ⟨collapse_ws (s.data.map (fun c => if c ∈ NBSP_CHARS then ' ' else c))⟩

/-- Code-point lexicographic comparison on char lists, the order used
by Python's `sorted` on strings. -/
def chars_le : List Char → List Char → Bool
  | [], _ => true
  | _ :: _, [] => false
  | a :: as, b :: bs =>
    if a.toNat < b.toNat then true
    else if b.toNat < a.toNat then false
    else chars_le as bs

/-- Code-point lexicographic comparison on strings. -/
def str_le (a b : String) : Bool := chars_le a.data b.data

/-- Insert into a `str_le`-sorted list, keeping it sorted. -/
def insert_sorted (x : String) : List String → List String
  | [] => [x]
  | y :: ys => if str_le x y then x :: y :: ys else y :: insert_sorted x ys

/-- Ascending insertion sort on strings, the model of Python's
`sorted` on the (duplicate-free) option sets. -/
def sort_strings (l : List String) : List String := l.foldr insert_sorted []

/-- Keep the first element for each key, dropping later elements whose
key was already seen. -/
def dedup_seen {α β : Type} [DecidableEq β] (key : α → β) (seen : List β) : List α → List α
  | [] => []
  | x :: xs =>
    if key x ∈ seen then dedup_seen key seen xs
    else x :: dedup_seen key (key x :: seen) xs

/-- Order-preserving first-occurrence deduplication by key (the
`seen`/`uniq` pattern used throughout main.py). -/
def dedup_first {α β : Type} [DecidableEq β] (key : α → β) (l : List α) : List α :=
  dedup_seen key [] l

/-- Accessibility-tree node: role, accessible name, value, the
focused / disabled / readonly flags and the ordered children.  Python
represents a missing role / name / value as `None`; every use in the
source coerces those through `or ""` or a truthiness test, so they are
modelled as the empty string. -/
inductive AXNode : Type where
  | mk (role name value : String) (focused disabled readonly : Bool)
      (children : List AXNode) : AXNode

def AXNode.role : AXNode → String
  | .mk r _ _ _ _ _ _ => r

def AXNode.name : AXNode → String
  | .mk _ n _ _ _ _ _ => n

def AXNode.value : AXNode → String
  | .mk _ _ v _ _ _ _ => v

def AXNode.focused : AXNode → Bool
  | .mk _ _ _ f _ _ _ => f

def AXNode.disabled : AXNode → Bool
  | .mk _ _ _ _ d _ _ => d

def AXNode.readonly : AXNode → Bool
  | .mk _ _ _ _ _ ro _ => ro

def AXNode.children : AXNode → List AXNode
  | .mk _ _ _ _ _ _ cs => cs

/-- The interactive role set of `_is_editable_role`. -/
def INTERACTIVE_ROLES : List String :=
  ["textbox", "searchbox", "combobox", "listbox", "checkbox", "radio", "switch",
   "spinbutton", "slider", "menuitemcheckbox", "menuitemradio", "textarea", "select"]

/-- Embedding of `_is_editable_role`: interactive role, not disabled,
not readonly. -/
def is_editable_role (role : String) (node : AXNode) : Bool :=
  if role = "" then false
  else
    let r := lower_str role
    if r ∉ INTERACTIVE_ROLES then false
    else if node.disabled then false
    else if node.readonly then false
    else true

mutual
/-- Embedding of `_walk`: the node followed by the preorder walk of its
children. -/
def walk : AXNode → List AXNode
  | .mk r n v f d ro cs => .mk r n v f d ro cs :: walk_list cs
def walk_list : List AXNode → List AXNode
  | [] => []
  | c :: cs => walk c ++ walk_list cs
end

mutual
/-- Embedding of `visit`'s traversal spine in `_scan_all_fields`: the
preorder list of nodes paired with their ancestor chains (the node's
effect in `visit` depends only on the node, its ancestors and the whole
tree, and the two accumulators are appended to in preorder, so the
traversal factors through this list). -/
def walk_anc : AXNode → List AXNode → List (AXNode × List AXNode)
  | .mk r n v f d ro cs, ancestors =>
    (.mk r n v f d ro cs, ancestors) ::
      walk_anc_list cs (ancestors ++ [.mk r n v f d ro cs])
def walk_anc_list : List AXNode → List AXNode → List (AXNode × List AXNode)
  | [], _ => []
  | c :: cs, ancestors => walk_anc c ancestors ++ walk_anc_list cs ancestors
end

mutual
/-- Embedding of `_find_focused_node`: depth-first search for the first
node with the `focused` flag, returning it with its ancestor chain. -/
def find_focused : AXNode → List AXNode → Option (AXNode × List AXNode)
  | .mk r n v f d ro cs, path =>
    if f then some (.mk r n v f d ro cs, path)
    else find_focused_list cs (path ++ [.mk r n v f d ro cs])
def find_focused_list : List AXNode → List AXNode → Option (AXNode × List AXNode)
  | [], _ => none
  | c :: cs, path =>
    match find_focused c path with
    | some res => some res
    | none => find_focused_list cs path
end

/-- The container role set of `_nearest_container`. -/
def CONTAINER_ROLES : List String := ["radiogroup", "group", "form", "listbox", "combobox"]

/-- Embedding of `_nearest_container`: a combobox/listbox is its own
container; otherwise the nearest ancestor with a container role;
otherwise the node itself.  (In every call site the node is non-null,
so the `(None, "")` case of the source cannot arise.) -/
def nearest_container (node : AXNode) (ancestors : List AXNode) : AXNode × String :=
  if node.role = "combobox" ∨ node.role = "listbox" then (node, norm_text node.name)
  else
    match ancestors.reverse.find? (fun a => decide (a.role ∈ CONTAINER_ROLES)) with
    | some anc => (anc, norm_text anc.name)
    | none => (node, norm_text node.name)

/-- Embedding of `_collect_options_for_container`: walk the container
subtree collecting the normalized non-empty names of its option-bearing
descendants, deduplicated preserving order; the second component is the
container role (`none` for an unrecognised container role). -/
def collect_options_for_container (container : AXNode) : List String × Option String :=
  let role := container.role
  let target_roles : List String :=
    if role = "combobox" ∨ role = "listbox" then ["option"]
    else if role = "radiogroup" ∨ role = "group" then ["radio", "checkbox"]
    else []
  if target_roles = [] then ([], none)
  else
    let options := (walk container).filterMap (fun n =>
      if n.role ∈ target_roles then
        (let nm := norm_text n.name
         if nm ≠ "" then some nm else none)
      else none)
    (dedup_first (fun o => o) options, some role)

/-- Embedding of `_find_nodes_by_role`: all nodes of the tree with the
given role, in preorder (the source uses its own preorder walker). -/
def find_nodes_by_role (t : AXNode) (role : String) : List AXNode :=
  (walk t).filter (fun n => n.role == role)

/-- The separator characters of `_stable_label`'s trimming pattern
`[\s:\-–—]*`. -/
def is_sep_char (c : Char) : Bool := pyIsSpace c || c = ':' || c = '-' || c = '–' || c = '—'

/-- Embedding of `_stable_label`: normalize the label and, when the
node's normalized value is a suffix of it (ignoring trailing
whitespace), remove the value together with the maximal run of
separator characters before it — the effect of
`re.sub(r"[\s:\-–—]*" + re.escape(val) + r"\s*$", "", lbl)`. -/
def stable_label (label : String) (node : AXNode) : String :=
  let lbl := norm_text label
  let val := norm_text node.value
  if val = "" then lbl
  else
    let rs := lbl.data.reverse.dropWhile pyIsSpace
    if list_starts_with val.data.reverse rs then
      ⟨((rs.drop val.data.length).dropWhile is_sep_char).reverse⟩
    else lbl

/-- The text-like input roles (`TEXT_INPUT_ROLES` in main.py). -/
def TEXT_INPUT_ROLES : List String := ["textbox", "searchbox", "textarea", "spinbutton"]

/-- The roles that trigger grouped handling in `_scan_all_fields`. -/
def GROUPED_ROLES : List String :=
  ["radio", "checkbox", "combobox", "listbox", "radiogroup", "group"]

/-- One scanned field, as written to the fields YAML: name, role,
options and the `multi` flag, which is present only on grouped entries
(`none` models an absent key).  The free-text `example` value computed
by `_guess_example` is not modelled: it is copied verbatim into the
record, influences no other output and no claim refers to it. -/
structure FormField where
  name : String
  role : String
  options : List String
  multi : Option Bool
deriving Repr, DecidableEq

/-- The accumulated state of one grouped label: its role and its option
set (a duplicate-free list standing for the Python `set`). -/
structure GroupMeta where
  role : String
  options : List String
deriving Repr, DecidableEq

/-- Add to a set-as-list (`set.add`). -/
def set_insert (s : List String) (x : String) : List String :=
  if x ∈ s then s else s ++ [x]

def set_insert_all (s : List String) (xs : List String) : List String := xs.foldl set_insert s

/-- Embedding of `add_grouped` in `_scan_all_fields`: `setdefault` the
label (insertion-ordered), overwrite the role when a non-empty
different role arrives, union the options. -/
def add_grouped : List (String × GroupMeta) → String → String → List String →
    List (String × GroupMeta)
  | [], label, role, opts => [(label, ⟨role, set_insert_all [] opts⟩)]
  | (l, m) :: rest, label, role, opts =>
    if l = label then
      (l, ⟨if role ≠ "" ∧ m.role ≠ role then role else m.role,
           set_insert_all m.options opts⟩) :: rest
    else (l, m) :: add_grouped rest label role opts

/-- The options and field role computed for one grouped node in
`_scan_all_fields`: collect from the container; when the (combobox)
container yields zero options, fall back to every listbox in the whole
tree whose normalized name equals the label. -/
def grouped_opts_for (tree container : AXNode) (node_role label : String) :
    List String × String :=
  let pr := collect_options_for_container container
  let field_role := pr.2.getD node_role
  let opts :=
    if (field_role = "combobox" ∨ node_role = "combobox") ∧ pr.1 = [] then
      pr.1 ++ ((find_nodes_by_role tree "listbox").filter
          (fun lb => norm_text lb.name == label)).flatMap
        (fun lb => (collect_options_for_container lb).1)
    else pr.1
  (opts, field_role)

/-- The effect of one `visit` step on the `grouped` accumulator. -/
def grouped_step (tree : AXNode) (g : List (String × GroupMeta)) (p : AXNode × List AXNode) :
    List (String × GroupMeta) :=
  let node := p.1
  let role := node.role
  let name := norm_text node.name
  if role ∈ GROUPED_ROLES then
    let nc := nearest_container node p.2
    let label := if nc.2 ≠ "" then nc.2 else name
    if label ≠ "" then
      let og := grouped_opts_for tree nc.1 role label
      add_grouped g label og.2 og.1
    else g
  else g

/-- The text-like fields appended by `visit`, in preorder. -/
def text_fields_of (t : AXNode) : List FormField :=
  (walk_anc t []).filterMap (fun p =>
    let role := p.1.role
    let name := norm_text p.1.name
    if role ∈ GROUPED_ROLES then none
    else if role ∈ TEXT_INPUT_ROLES ∧ name ≠ "" then
      some { name := name, role := role, options := [], multi := none }
    else none)

/-- The `grouped` accumulator after the full traversal. -/
def grouped_of (t : AXNode) : List (String × GroupMeta) :=
  (walk_anc t []).foldl (grouped_step t) []

/-- Flushing one grouped entry to a field record: sorted options and
`multi := (role == "listbox")`. -/
def flush_grouped (e : String × GroupMeta) : FormField :=
  { name := e.1, role := e.2.role, options := sort_strings e.2.options,
    multi := some (e.2.role == "listbox") }

/-- The field list of `_scan_all_fields` before the final
deduplication: text fields in first-encounter order, then the grouped
entries flushed in label-insertion order. -/
def raw_fields (t : AXNode) : List FormField :=
  text_fields_of t ++ (grouped_of t).map flush_grouped

/-- The deduplication key of `_scan_all_fields`'s final pass. -/
def field_key (f : FormField) : String × String := (f.role, f.name)

/-- Embedding of `_scan_all_fields`: scan the tree, then deduplicate by
`(role, name)` keeping first occurrences. -/
def scan_all_fields (t : AXNode) : List FormField := dedup_first field_key (raw_fields t)

/-- Embedding of `_scan_all_fields` on an optional tree (the snapshot
may be `None`). -/
def scan_all_fields_opt : Option AXNode → List FormField
  | none => []
  | some t => scan_all_fields t

/-- The synonym table shared by both `_best_option` implementations. -/
def SYNONYMS : List (String × String) :=
  [("new york city", "New York"), ("nyc", "New York"), ("sf", "San Francisco"),
   ("sfo", "San Francisco"), ("mountain view", "San Jose (Campbell)")]

/-- Dictionary lookup in the synonym table. -/
def find_synonym (tl : String) : Option String :=
  (SYNONYMS.find? (fun p => p.1 == tl)).map (fun p => p.2)

/-- Map every character that is not `[a-z0-9\s]` to a space. -/
def keep_alnum_space (c : Char) : Char :=
  if ('a' ≤ c ∧ c ≤ 'z') ∨ ('0' ≤ c ∧ c ≤ '9') ∨ pyIsSpace c then c else ' '

/-- Embedding of `canon` (identical in ai-form.py and in main.py's
inline `_best_option`): lowercase, drop parenthesized qualifiers, drop
the word `city`, replace non-alphanumerics by spaces, collapse
whitespace, strip. -/
def canon (s : String) : String :=
  ⟨collapse_ws (((replace_list ['c', 'i', 't', 'y'] []
      (drop_parens (lower_str s).data))).map keep_alnum_space)⟩

/-- First option whose canonical form equals the token's. -/
def find_canon_eq (tlc : String) : List String → Option String
  | [] => none
  | o :: os => if canon o = tlc then some o else find_canon_eq tlc os

/-- First option whose canonical form contains, or is contained in, the
token's canonical form. -/
def find_substr_match (tlc : String) : List String → Option String
  | [] => none
  | o :: os =>
    let oc := canon o
    if str_contains oc tlc || str_contains tlc oc then some o
    else find_substr_match tlc os

/-- The distinct whitespace-delimited words of a string (Python's
`set(s.split())`). -/
def word_set (s : String) : List String :=
  dedup_first (fun o => o)
    (((s.data.splitOnP pyIsSpace).filter (fun w => w ≠ [])).map (fun w => (⟨w⟩ : String)))

/-- Number of shared distinct words between the canonical token and an
option's canonical form (`len(tset & oset)`). -/
def overlap_score (tlc o : String) : Nat :=
  ((word_set tlc).filter (fun w => w ∈ word_set (canon o))).length

/-- One step of the best-score fold (`if score > best[0]`). -/
def overlap_step (tlc : String) (b : Nat × Option String) (o : String) : Nat × Option String :=
  if overlap_score tlc o > b.1 then (overlap_score tlc o, some o) else b

/-- The `best = (0, None)` fold over the options. -/
def overlap_fold (tlc : String) (opts : List String) : Nat × Option String :=
  opts.foldl (overlap_step tlc) (0, none)

/-- The token-overlap heuristic: the first option attaining the
maximal positive overlap, if any. -/
def overlap_best (tlc : String) (opts : List String) : Option String :=
  let b := overlap_fold tlc opts
  if b.1 > 0 then b.2 else none

/-- The fuzzy tail of both `_best_option` implementations:
canonical-form equality, substring containment, token overlap; the
final fallback is the first option in ai-form.py
(`fallback_first = true`) and the token itself in main.py's inline
variant (`fallback_first = false`). -/
def best_option_tail (fallback_first : Bool) (t : String) (options : List String) : String :=
  match find_canon_eq (canon t) options with
  | some o => o
  | none =>
    match find_substr_match (canon t) options with
    | some o => o
    | none =>
      match overlap_best (canon t) options with
      | some o => o
      | none => if fallback_first then options.headD t else t

/-- The heuristic chain shared by both `_best_option` implementations:
synonym table first, then the fuzzy tail. -/
def best_option_core (fallback_first : Bool) (t : String) (options : List String) : String :=
  let tl := lower_str t
  let syn : Option String :=
    match find_synonym tl with
    | some v => if v ∈ options then some v else none
    | none => none
  match syn with
  | some v => v
  | none => best_option_tail fallback_first t options

/-- Embedding of `_best_option` in ai-form.py (falls back to the first
option). -/
def best_option_ai (token : String) (options : List String) : String :=
  if options.isEmpty then token else best_option_core true (py_strip token) options

/-- Embedding of the inline `_best_option` in main.py's chip-input
filler (falls back to the stripped token itself). -/
def best_option_main (token : String) (options : List String) : String :=
  let t := py_strip token
  if options.isEmpty then t else best_option_core false t options

/-- The resume-answer keys that `_map_resume_value` and the radio
fallback read; every other key of the answers dictionary is unused by
the embedded code paths. -/
structure ResumeAnswers where
  work_visa_status : String := ""
  location_preference_city_ordered : List String := []
  location_preference_top_selections : Option Nat := none
  heard_about_us : String := ""
deriving Repr

/-- Does the string contain any of the keyword substrings? -/
def contains_any (s : String) (keys : List String) : Bool :=
  keys.any (fun k => str_contains s k)

/-- First candidate present in the option list (`for cand in ...: if
cand in options: return cand`). -/
def first_present (cands options : List String) : Option String :=
  cands.find? (fun c => decide (c ∈ options))

/-- The label keywords of the work-authorization branch. -/
def AUTH_KEYWORDS : List String :=
  ["authoris", "authoriz", "visa", "sponsor", "work permit", "eligib"]

/-- The `heard_about_us` mapping table. -/
def HEARD_MAPPING : List (String × String) :=
  [("company_website", "Datadog's Careers Page"), ("github", "Github"),
   ("hacker_news", "Hacker News"), ("linkedin", "LinkedIn (Job Posting)")]

/-- The safe fallback choices for the how-did-you-hear branch. -/
def HEARD_FALLBACKS : List String :=
  ["Datadog's Careers Page", "Github", "Hacker News", "LinkedIn (Job Posting)"]

/-- Embedding of `_map_resume_value` (main.py): label-keyword driven
mapping from the resume answers to a field value. -/
def map_resume_value (field_name role : String) (options : List String) (r : ResumeAnswers) :
    String :=
  let n := lower_str field_name
  if contains_any n AUTH_KEYWORDS then
    let status := lower_str r.work_visa_status
    if options ≠ [] then
      match (if contains_any status ["citizen", "permanent", "no sponsorship", "authorized"]
             then first_present ["Yes, no restriction.", "Yes, no restriction", "Yes"] options
             else none) with
      | some c => c
      | none =>
        match (if contains_any status ["future", "will need", "student", "opt", "stem"]
               then first_present
                 ["Yes, but I will need sponsorship in the future.",
                  "Yes, but I will need sponsorship in the future"] options
               else none) with
        | some c => c
        | none =>
          match first_present ["No, I need sponsorship now.", "No"] options with
          | some c => c
          | none => ""
    else
      if role = "combobox" ∨ role = "listbox" then "Yes, no restriction."
      else if role = "radiogroup" ∨ role = "group" then "Yes"
      else ""
  else if str_contains n "what cities" ∨ str_contains n "available to work" ∨
      (role ∈ TEXT_INPUT_ROLES ∧ (str_contains n "city" ∨ str_contains n "cities")) then
    let cities := r.location_preference_city_ordered
    if cities ≠ [] then
      ⟨List.intercalate (", ".data)
        ((cities.take (r.location_preference_top_selections.getD 3)).map (fun c => c.data))⟩
    else ""
  else if str_contains n "how did you hear" then
    let heard := lower_str r.heard_about_us
    let tail_choice : String :=
      match first_present HEARD_FALLBACKS options with
      | some c => c
      | none => options.headD ""
    match (HEARD_MAPPING.find? (fun p => p.1 == heard)).map (fun p => p.2) with
    | some desired => if desired ∈ options then desired else tail_choice
    | none => tail_choice
  else ""

/-- Embedding of the radio-fill value derivation in
`collect_form_labels` (main.py lines 873-886): first the label-aware
resume mapping with `opts or ["Yes", "No"]`, then, when that yields
nothing and the detected options include both "Yes" and "No", the
status-keyword fallback. -/
def radio_derived_value (label : String) (opts : List String) (r : ResumeAnswers) : String :=
  let derived := map_resume_value label "radiogroup" (if opts = [] then ["Yes", "No"] else opts) r
  if derived = "" ∧ opts ≠ [] ∧ "Yes" ∈ opts ∧ "No" ∈ opts then
    let status := lower_str r.work_visa_status
    if contains_any status ["citizen", "permanent", "authorized"] then
      if "Yes" ∈ opts then "Yes" else ""
    else if contains_any status ["future", "will need", "student", "opt", "stem"] then
      if "No" ∈ opts then "No" else ""
    else ""
  else derived

/-- The traversal control state of `collect_form_labels`'s tab loop:
exactly the variables that feed its stop conditions, plus the counters
of focus-advance (`Tab`) and reverse-focus (`Shift+Tab`) key presses.
The accumulators that never influence control flow (`field_options`,
`field_buttons`, `fill_events`, `last_container_label`) are not part of
the control state; the fill interaction is modelled separately by
`fill_dispatch`. -/
structure WalkerState where
  labels : List String
  seen_keys : List String
  seen_labels : List String
  first_stable_label : Option String
  unique_stable_labels : List String
  last_key : Option String
  stuck_count : Nat
  tabs_sent : Nat
  shift_tabs_sent : Nat
  ended_reason : Option String
  backtracked : Bool
deriving Repr, DecidableEq

/-- The state at the top of the tab loop. -/
def init_walker : WalkerState :=
  { labels := [], seen_keys := [], seen_labels := [], first_stable_label := none,
    unique_stable_labels := [], last_key := none, stuck_count := 0, tabs_sent := 0,
    shift_tabs_sent := 0, ended_reason := none, backtracked := false }

/-- The focus key `f"{role}|{name}"`. -/
def focus_key (n : AXNode) : String := n.role ++ "|" ++ norm_text n.name

/-- The stable label computed for a focused editable node: container
label, else the node name, else the `<unlabeled-field>` placeholder,
run through `_stable_label`. -/
def stable_label_of (node : AXNode) (ancestors : List AXNode) : String :=
  let nc := nearest_container node ancestors
  let name := norm_text node.name
  let raw_label := if nc.2 ≠ "" then nc.2 else if name ≠ "" then name else "<unlabeled-field>"
  stable_label raw_label node

/-- Recording a newly focused editable field (`if key not in
seen_keys`): remember the key, and append the stable label to the
ordered label list when it is new. -/
def record_field (st : WalkerState) (key sl : String) : WalkerState :=
  if key ∈ st.seen_keys then st
  else
    let st1 := { st with seen_keys := st.seen_keys ++ [key] }
    if sl ∈ st1.seen_labels then st1
    else { st1 with seen_labels := st1.seen_labels ++ [sl], labels := st1.labels ++ [sl] }

/-- The tail of one loop iteration: press `Tab` (modelled as always
succeeding), then the stuck check — the counter grows when the key
repeats, terminates the run at 3, and resets to zero otherwise.  On the
terminating iteration the source `break`s before updating `last_key`. -/
def advance_and_stuck (st : WalkerState) (key : Option String) : WalkerState × Bool :=
  let st1 := { st with tabs_sent := st.tabs_sent + 1 }
  match key with
  | some k =>
    if st1.last_key = some k then
      if st1.stuck_count + 1 ≥ 3 then
        ({ st1 with
            stuck_count := st1.stuck_count + 1
            ended_reason := some "focus_stuck" }, false)
      else ({ st1 with stuck_count := st1.stuck_count + 1, last_key := some k }, true)
    else ({ st1 with stuck_count := 0, last_key := some k }, true)
  | none => ({ st1 with stuck_count := 0, last_key := none }, true)

/-- One iteration of the tab loop of `collect_form_labels` on the
snapshot taken at the top of the iteration: find the focused node; for
an editable node update the stable-label bookkeeping, run the loop
check (issuing one reverse-focus step and stopping on detection),
otherwise record the field; finally advance focus and run the stuck
check.  The returned boolean is `false` when the loop `break`s. -/
def walk_step (th : Nat) (st : WalkerState) (snap : Option AXNode) : WalkerState × Bool :=
  match snap.bind (fun t => find_focused t []) with
  | none => advance_and_stuck st none
  | some nodeanc =>
    let node := nodeanc.1
    if is_editable_role node.role node then
      let sl := stable_label_of node nodeanc.2
      let first := st.first_stable_label.getD sl
      let unique := set_insert st.unique_stable_labels sl
      let st1 := { st with first_stable_label := some first, unique_stable_labels := unique }
      if sl = first ∧ th ≤ unique.length ∧ 1 ≤ st.seen_labels.length then
        ({ st1 with
            shift_tabs_sent := st1.shift_tabs_sent + 1
            ended_reason := some "loop_detected"
            backtracked := true }, false)
      else
        advance_and_stuck (record_field st1 (focus_key node) sl) (some (focus_key node))
    else
      advance_and_stuck st (some (focus_key node))

/-- The tab loop (`for _ in range(max_tabs)`), driven by the trace of
accessibility snapshots observed at the top of each iteration. -/
def walk_run (th : Nat) : Nat → List (Option AXNode) → WalkerState → WalkerState
  | 0, _, st => st
  | _ + 1, [], st => st
  | f + 1, s :: ss, st =>
    let r := walk_step th st s
    if r.2 then walk_run th f ss r.1 else r.1

/-- One event appended to `fill_events`. -/
inductive FillEvent where
  | typed (field typed_text : String) (confirmed : Option Bool)
  | selected (field chosen : String) (confirmed : Option Bool)
  | toggled_to (field : String) (checked : Bool) (confirmed : Option Bool)
deriving Repr, DecidableEq

/-- The truthy tokens of the checkbox arm. -/
def TRUTHY_TOKENS : List String := ["yes", "true", "checked"]

/-- The role-dispatch skeleton of the fill logic in
`collect_form_labels` (main.py lines 692-938), with the interactive
sub-results abstracted as parameters: `text_confirmed` /
`combo_confirmed` stand for the verification outcomes read back from
the page, `radio_target` for the value of `target` after the radio
fallback chain, and `radio_curr_name` for the focused sibling name
after the arrow-key loop.  The branch structure — including the fact
that the source's `elif role == "checkbox"` arm is indented under the
radio arm, as the `else` of its `if target:` — is reproduced exactly.
The resolved value `ex` is a string (the source's list-valued case only
changes how many combobox events are emitted). -/
def fill_dispatch (role label_text ex : String)
    (text_confirmed combo_confirmed : Option Bool)
    (radio_target radio_curr_name : String) : List FillEvent :=
  if role ∈ TEXT_INPUT_ROLES then
    [.typed label_text ex text_confirmed]
  else if (role = "combobox" ∨ role = "listbox") ∧ ex ≠ "" then
    [.selected label_text ex combo_confirmed]
  else if role = "radio" then
    if radio_target ≠ "" then
      [.selected label_text radio_target (some (radio_curr_name == radio_target))]
    else if role = "checkbox" then
      [.toggled_to label_text (decide (lower_str ex ∈ TRUTHY_TOKENS)) none]
    else []
  else []

/-- A focused, enabled textbox with the given accessible name. -/
def tb (l : String) : AXNode := .mk "textbox" l "" true false false []

/-- An option node with the given name. -/
def opt_node (nm : String) : AXNode := .mk "option" nm "" false false false []

/-- A radio node with the given name. -/
def radio_node (nm : String) : AXNode := .mk "radio" nm "" false false false []

/-- A small concrete form tree used to instantiate the scan theorems:
two identically named textboxes, a listbox and a radiogroup. -/
def sample_tree : AXNode :=
  .mk "form" "Application" "" false false false
    [.mk "textbox" "First Name" "" false false false [],
     .mk "listbox" "Cities" "" false false false [opt_node "Seattle", opt_node "Amsterdam"],
     .mk "radiogroup" "Work basis" "" false false false [radio_node "Yes", radio_node "No"],
     .mk "textbox" "First Name" "" false false false []]

/-- The listbox field produced by scanning `sample_tree`. -/
def fld_cities : FormField :=
  { name := "Cities", role := "listbox", options := ["Amsterdam", "Seattle"],
    multi := some true }

/-- A combobox named "City" with no option children. -/
def combo_city : AXNode := .mk "combobox" "City" "" false false false []

/-- A tree in which the combobox's option list lives in a detached
listbox of the same name. -/
def w_tree : AXNode :=
  .mk "group" "G" "" false false false
    [combo_city,
     .mk "listbox" "City" "" false false false [opt_node "Amsterdam", opt_node "Seattle"]]

/-- The option set used by the spec's option-matching example. -/
def NY_OPTS : List String := ["Amsterdam", "New York", "San Jose (Campbell)", "Seattle"]

/-- The claim-C8 equivalence: equal fields up to the ordering of the
option set. -/
def field_equiv_up_to_options (f g : FormField) : Prop :=
  f.name = g.name ∧ f.role = g.role ∧ f.multi = g.multi ∧ f.options.Perm g.options

/-! Helper lemmas. -/

theorem str_append_left_cancel (s x y : String) : s ++ x = s ++ y ↔ x = y := by
  constructor
  · intro h
    have hd : (s ++ x).data = (s ++ y).data := congrArg String.data h
    rw [String.data_append, String.data_append] at hd
    exact String.ext (List.append_cancel_left hd)
  · intro h; rw [h]

theorem dedup_seen_sublist {α β : Type} [DecidableEq β] (key : α → β) :
    ∀ (l : List α) (seen : List β), (dedup_seen key seen l).Sublist l := by
  intro l
  induction l with
  | nil => intro seen; simp [dedup_seen]
  | cons x xs ih =>
    intro seen
    simp only [dedup_seen]
    split
    · exact (ih seen).cons x
    · exact (ih (key x :: seen)).cons₂ x

theorem dedup_seen_find {α β : Type} [DecidableEq β] (key : α → β) :
    ∀ (l : List α) (seen : List β) (g : α), g ∈ dedup_seen key seen l →
      key g ∉ seen ∧ l.find? (fun f => decide (key f = key g)) = some g := by
  intro l
  induction l with
  | nil => intro seen g hg; simp [dedup_seen] at hg
  | cons x xs ih =>
    intro seen g hg
    simp only [dedup_seen] at hg
    by_cases hx : key x ∈ seen
    · rw [if_pos hx] at hg
      obtain ⟨hns, hfind⟩ := ih seen g hg
      refine ⟨hns, ?_⟩
      rw [List.find?_cons_of_neg, hfind]
      simp only [decide_eq_true_eq]
      intro heq
      exact hns (heq ▸ hx)
    · rw [if_neg hx] at hg
      rcases List.mem_cons.1 hg with rfl | hg2
      · refine ⟨hx, ?_⟩
        rw [List.find?_cons_of_pos]
        simp
      · obtain ⟨hns, hfind⟩ := ih (key x :: seen) g hg2
        simp only [List.mem_cons, not_or] at hns
        refine ⟨hns.2, ?_⟩
        rw [List.find?_cons_of_neg, hfind]
        simp only [decide_eq_true_eq]
        exact fun heq => hns.1 heq.symm

theorem dedup_seen_covers {α β : Type} [DecidableEq β] (key : α → β) :
    ∀ (l : List α) (seen : List β) (f : α), f ∈ l → key f ∉ seen →
      ∃ g ∈ dedup_seen key seen l, key g = key f := by
  intro l
  induction l with
  | nil => intro seen f hf _; simp at hf
  | cons x xs ih =>
    intro seen f hf hns
    simp only [dedup_seen]
    by_cases hx : key x ∈ seen
    · rw [if_pos hx]
      rcases List.mem_cons.1 hf with rfl | hf2
      · exact absurd hx hns
      · exact ih seen f hf2 hns
    · rw [if_neg hx]
      rcases List.mem_cons.1 hf with rfl | hf2
      · exact ⟨f, List.mem_cons_self f _, rfl⟩
      · by_cases hk : key f = key x
        · exact ⟨x, List.mem_cons_self x _, hk.symm⟩
        · obtain ⟨g, hg, he⟩ :=
            ih (key x :: seen) f hf2 (by simp only [List.mem_cons, not_or]; exact ⟨hk, hns⟩)
          exact ⟨g, List.mem_cons_of_mem _ hg, he⟩

theorem dedup_seen_pairwise {α β : Type} [DecidableEq β] (key : α → β) :
    ∀ (l : List α) (seen : List β),
      (dedup_seen key seen l).Pairwise (fun a b => key a ≠ key b) := by
  intro l
  induction l with
  | nil => intro seen; simp [dedup_seen]
  | cons x xs ih =>
    intro seen
    simp only [dedup_seen]
    split
    · exact ih seen
    · refine List.Pairwise.cons ?_ (ih (key x :: seen))
      intro b hb
      have hb2 := (dedup_seen_find key xs (key x :: seen) b hb).1
      simp only [List.mem_cons, not_or] at hb2
      exact fun he => hb2.1 he.symm

/-! Claim theorems, part 1. -/

/-- C1.  For every accessibility tree, `_scan_all_fields` emits no two
entries with the same `(role, name)` key: its output is pairwise
key-distinct, it is a subsequence of the pre-deduplication field list
(so surviving entries keep their first-encounter positions), every key
of the pre-deduplication list is represented, and each surviving entry
is exactly the first entry of the pre-deduplication list bearing its
key. -/
theorem scan_no_duplicate_keys (t : AXNode) :
    (scan_all_fields t).Pairwise (fun f g => field_key f ≠ field_key g) ∧
    (scan_all_fields t).Sublist (raw_fields t) ∧
    (∀ f ∈ raw_fields t, ∃ g ∈ scan_all_fields t, field_key g = field_key f) ∧
    (∀ g ∈ scan_all_fields t,
      (raw_fields t).find? (fun f => decide (field_key f = field_key g)) = some g) :=
  ⟨dedup_seen_pairwise field_key (raw_fields t) [],
   dedup_seen_sublist field_key (raw_fields t) [],
   fun f hf => dedup_seen_covers field_key (raw_fields t) [] f hf (by simp),
   fun g hg => (dedup_seen_find field_key (raw_fields t) [] g hg).2⟩

theorem scan_no_duplicate_keys_witness :
    (scan_all_fields sample_tree).Pairwise (fun f g => field_key f ≠ field_key g) :=
  (scan_no_duplicate_keys sample_tree).1

/-- C8.  Scanning is idempotent: the embedded `_scan_all_fields` is a
pure function of the tree, so two scans of the same unchanged tree are
entrywise equal — in particular equal up to the ordering of each
entry's option set. -/
theorem scan_idempotent (t : AXNode) :
    List.Forall₂ field_equiv_up_to_options (scan_all_fields t) (scan_all_fields t) :=
  List.forall₂_same.2 (fun _ _ => ⟨rfl, rfl, rfl, List.Perm.refl _⟩)

/-- C6.  Both `_best_option` implementations map "New York City" to
"New York" and "Mountain View" to "San Jose (Campbell)" against the
spec's example option set. -/
theorem option_matcher_examples :
    best_option_ai "New York City" NY_OPTS = "New York" ∧
    best_option_main "New York City" NY_OPTS = "New York" ∧
    best_option_ai "Mountain View" NY_OPTS = "San Jose (Campbell)" ∧
    best_option_main "Mountain View" NY_OPTS = "San Jose (Campbell)" := by
  decide

/-- C4 (code bug).  In the fill dispatch of `collect_form_labels`, the
`elif role == "checkbox"` arm sits under the radio arm (it is the
`else` of `if target:`, where `role == "radio"` already holds), so a
focused editable checkbox matches no fill branch: no event is appended
and no toggle is issued, and the checkbox-toggle event is unreachable
for every input. -/
theorem checkbox_branch_dead (role label_text ex : String)
    (tc cc : Option Bool) (rt rc : String) :
    (role = "checkbox" → fill_dispatch role label_text ex tc cc rt rc = []) ∧
    (∀ fl b c, FillEvent.toggled_to fl b c ∉ fill_dispatch role label_text ex tc cc rt rc) := by
  constructor
  · intro h
    subst h
    simp [fill_dispatch, TEXT_INPUT_ROLES]
  · intro fl b c hmem
    unfold fill_dispatch at hmem
    split at hmem
    · simp at hmem
    · split at hmem
      · simp at hmem
      · split at hmem
        · rename_i hradio
          split at hmem
          · simp at hmem
          · split at hmem
            · rename_i hcheck
              rw [hradio] at hcheck
              exact absurd hcheck (by decide)
            · simp at hmem
        · simp at hmem

theorem checkbox_branch_dead_witness :
    fill_dispatch "checkbox" "Subscribe to updates" "yes" none none "" "" = [] :=
  (checkbox_branch_dead "checkbox" "Subscribe to updates" "yes" none none "" "").1 rfl

/-- The second component of `_collect_options_for_container` is the
container's own role, and only for the four recognised container
roles. -/
theorem collect_snd_role (c : AXNode) (r : String)
    (h : (collect_options_for_container c).2 = some r) :
    r = c.role ∧ (c.role = "combobox" ∨ c.role = "listbox" ∨
      c.role = "radiogroup" ∨ c.role = "group") := by
  unfold collect_options_for_container at h
  by_cases h1 : c.role = "combobox" ∨ c.role = "listbox"
  · simp only [h1, if_true] at h
    simp only [show (["option"] : List String) ≠ [] by decide, if_neg, if_false] at h
    rcases h1 with h1 | h1 <;> simp_all
  · by_cases h2 : c.role = "radiogroup" ∨ c.role = "group"
    · simp only [h1, if_false, h2, if_true] at h
      simp only [show (["radio", "checkbox"] : List String) ≠ [] by decide] at h
      rcases h2 with h2 | h2 <;> simp_all
    · simp [h1, h2] at h

/-- C9.  For a combobox container whose own subtree yields zero
options, `_scan_all_fields` adopts, in order, the options collected
from every listbox anywhere in the tree whose normalized name equals
the combobox's label; when no listbox name matches, the adopted option
list is empty. -/
theorem combobox_listbox_fallback (tree container : AXNode) (node_role label : String)
    (hrole : container.role = "combobox")
    (hempty : (collect_options_for_container container).1 = []) :
    (grouped_opts_for tree container node_role label).1 =
      ((find_nodes_by_role tree "listbox").filter
          (fun lb => norm_text lb.name == label)).flatMap
        (fun lb => (collect_options_for_container lb).1) ∧
    ((∀ lb ∈ find_nodes_by_role tree "listbox", norm_text lb.name ≠ label) →
      (grouped_opts_for tree container node_role label).1 = []) := by
  have hsnd : (collect_options_for_container container).2 = some "combobox" := by
    unfold collect_options_for_container
    simp [hrole]
  have hmain : (grouped_opts_for tree container node_role label).1 =
      ((find_nodes_by_role tree "listbox").filter
          (fun lb => norm_text lb.name == label)).flatMap
        (fun lb => (collect_options_for_container lb).1) := by
    unfold grouped_opts_for
    simp [hsnd, hempty]
  refine ⟨hmain, fun hnone => ?_⟩
  have hfilter : ((find_nodes_by_role tree "listbox").filter
      (fun lb => norm_text lb.name == label)) = [] := by
    rw [List.filter_eq_nil_iff]
    intro lb hlb
    simpa using hnone lb hlb
  rw [hmain, hfilter]
  rfl

theorem combobox_listbox_fallback_witness :
    (grouped_opts_for w_tree combo_city "combobox" "City").1 =
      ((find_nodes_by_role w_tree "listbox").filter
          (fun lb => norm_text lb.name == "City")).flatMap
        (fun lb => (collect_options_for_container lb).1) :=
  (combobox_listbox_fallback w_tree combo_city "combobox" "City" rfl rfl).1

theorem chars_le_total (a : List Char) : ∀ b, chars_le a b = true ∨ chars_le b a = true := by
  induction a with
  | nil => intro b; left; rfl
  | cons x xs ih =>
    intro b
    cases b with
    | nil => right; rfl
    | cons y ys =>
      by_cases h1 : x.toNat < y.toNat
      · left; simp [chars_le, h1]
      · by_cases h2 : y.toNat < x.toNat
        · right; simp [chars_le, h2]
        · rcases ih ys with h | h
          · left; simp [chars_le, h1, h2, h]
          · right; simp [chars_le, h1, h2, h]

theorem chars_le_trans : ∀ {a b c : List Char}, chars_le a b = true → chars_le b c = true →
    chars_le a c = true := by
  intro a
  induction a with
  | nil => intro b c _ _; rfl
  | cons x xs ih =>
    intro b c h1 h2
    cases b with
    | nil => simp [chars_le] at h1
    | cons y ys =>
      cases c with
      | nil => simp [chars_le] at h2
      | cons z zs =>
        simp only [chars_le] at h1 h2 ⊢
        by_cases hxy : x.toNat < y.toNat
        · by_cases hyz : y.toNat < z.toNat
          · have hlt : x.toNat < z.toNat := Nat.lt_trans hxy hyz
            simp [hlt]
          · by_cases hzy : z.toNat < y.toNat
            · simp [hyz, hzy] at h2
            · have heq : y.toNat = z.toNat :=
                Nat.le_antisymm (Nat.not_lt.1 hzy) (Nat.not_lt.1 hyz)
              have hlt : x.toNat < z.toNat := heq ▸ hxy
              simp [hlt]
        · by_cases hyx : y.toNat < x.toNat
          · simp [hxy, hyx] at h1
          · have hxyeq : x.toNat = y.toNat :=
              Nat.le_antisymm (Nat.not_lt.1 hyx) (Nat.not_lt.1 hxy)
            by_cases hyz : y.toNat < z.toNat
            · have hlt : x.toNat < z.toNat := hxyeq ▸ hyz
              simp [hlt]
            · by_cases hzy : z.toNat < y.toNat
              · simp [hyz, hzy] at h2
              · have h1x : chars_le xs ys = true := by simpa [hxy, hyx] using h1
                have h2x : chars_le ys zs = true := by simpa [hyz, hzy] using h2
                have hxz : ¬ x.toNat < z.toNat := by omega
                have hzx : ¬ z.toNat < x.toNat := by omega
                simp [hxz, hzx, ih h1x h2x]

theorem str_le_total (a b : String) : str_le a b = true ∨ str_le b a = true :=
  chars_le_total a.data b.data

theorem str_le_trans {a b c : String} (h1 : str_le a b = true) (h2 : str_le b c = true) :
    str_le a c = true :=
  chars_le_trans h1 h2

theorem mem_insert_sorted {x y : String} :
    ∀ {l : List String}, y ∈ insert_sorted x l → y = x ∨ y ∈ l := by
  intro l
  induction l with
  | nil => intro h; simpa [insert_sorted] using h
  | cons z zs ih =>
    intro h
    simp only [insert_sorted] at h
    split at h
    · exact List.mem_cons.1 h
    · rcases List.mem_cons.1 h with rfl | h2
      · exact Or.inr (List.mem_cons_self _ _)
      · rcases ih h2 with h3 | h3
        · exact Or.inl h3
        · exact Or.inr (List.mem_cons_of_mem _ h3)

theorem insert_sorted_pairwise {x : String} :
    ∀ {l : List String}, l.Pairwise (fun a b => str_le a b = true) →
      (insert_sorted x l).Pairwise (fun a b => str_le a b = true) := by
  intro l
  induction l with
  | nil => intro _; simp [insert_sorted]
  | cons z zs ih =>
    intro hp
    rcases List.pairwise_cons.1 hp with ⟨hz, hzs⟩
    simp only [insert_sorted]
    split
    · rename_i hxz
      refine List.Pairwise.cons ?_ hp
      intro b hb
      rcases List.mem_cons.1 hb with rfl | hb2
      · exact hxz
      · exact str_le_trans hxz (hz b hb2)
    · rename_i hxz
      have hzx : str_le z x = true := by
        rcases str_le_total x z with h | h
        · exact absurd h hxz
        · exact h
      refine List.Pairwise.cons ?_ (ih hzs)
      intro b hb
      rcases mem_insert_sorted hb with rfl | hb2
      · exact hzx
      · exact hz b hb2

theorem sort_strings_sorted (l : List String) :
    (sort_strings l).Pairwise (fun a b => str_le a b = true) := by
  unfold sort_strings
  induction l with
  | nil => simp
  | cons x xs ih => exact insert_sorted_pairwise ih

theorem grouped_opts_for_snd (tree c : AXNode) (nr label : String) :
    (grouped_opts_for tree c nr label).2 = ((collect_options_for_container c).2).getD nr := rfl

theorem grouped_opts_for_role (tree c : AXNode) (nr label : String)
    (h : nr ∈ GROUPED_ROLES) :
    (grouped_opts_for tree c nr label).2 ∈ GROUPED_ROLES := by
  rw [grouped_opts_for_snd]
  cases hc : (collect_options_for_container c).2 with
  | none => simpa using h
  | some r =>
    obtain ⟨rfl, h4⟩ := collect_snd_role c r hc
    simp only [Option.getD_some]
    rcases h4 with h4 | h4 | h4 | h4 <;> rw [h4] <;> decide

theorem add_grouped_roles (P : String → Prop) :
    ∀ (g : List (String × GroupMeta)) (label role : String) (opts : List String),
      (∀ e ∈ g, P e.2.role) → P role →
      ∀ e ∈ add_grouped g label role opts, P e.2.role := by
  intro g
  induction g with
  | nil =>
    intro label role opts _ hr e he
    simp only [add_grouped, List.mem_singleton] at he
    subst he
    exact hr
  | cons p ps ih =>
    intro label role opts hg hr e he
    obtain ⟨l, m⟩ := p
    simp only [add_grouped] at he
    split at he
    · rcases List.mem_cons.1 he with rfl | he2
      · dsimp only
        split
        · exact hr
        · exact hg (l, m) (List.mem_cons_self _ _)
      · exact hg e (List.mem_cons_of_mem _ he2)
    · rcases List.mem_cons.1 he with rfl | he2
      · exact hg (l, m) (List.mem_cons_self _ _)
      · exact ih label role opts (fun e2 he3 => hg e2 (List.mem_cons_of_mem _ he3)) hr e he2

theorem grouped_step_roles (tree : AXNode) (g : List (String × GroupMeta))
    (p : AXNode × List AXNode) (hg : ∀ e ∈ g, e.2.role ∈ GROUPED_ROLES) :
    ∀ e ∈ grouped_step tree g p, e.2.role ∈ GROUPED_ROLES := by
  intro e he
  simp only [grouped_step] at he
  split at he
  · rename_i h1
    have solve : ∀ (lbl : String),
        e ∈ add_grouped g lbl
            (grouped_opts_for tree (nearest_container p.1 p.2).1 p.1.role lbl).2
            (grouped_opts_for tree (nearest_container p.1 p.2).1 p.1.role lbl).1 →
        e.2.role ∈ GROUPED_ROLES := fun lbl hmem =>
      add_grouped_roles (fun r => r ∈ GROUPED_ROLES) g _ _ _ hg
        (grouped_opts_for_role tree _ _ _ h1) e hmem
    split at he <;>
      first
        | exact hg e he
        | exact solve _ he
        | (split at he <;>
            first
              | exact hg e he
              | exact solve _ he)
  · exact hg e he

theorem foldl_grouped_roles (tree : AXNode) :
    ∀ (l : List (AXNode × List AXNode)) (g0 : List (String × GroupMeta)),
      (∀ e ∈ g0, e.2.role ∈ GROUPED_ROLES) →
      ∀ e ∈ l.foldl (grouped_step tree) g0, e.2.role ∈ GROUPED_ROLES := by
  intro l
  induction l with
  | nil => intro g0 h; simpa using h
  | cons p ps ih =>
    intro g0 h
    simp only [List.foldl_cons]
    exact ih (grouped_step tree g0 p) (grouped_step_roles tree g0 p h)

theorem grouped_of_roles (t : AXNode) : ∀ e ∈ grouped_of t, e.2.role ∈ GROUPED_ROLES :=
  foldl_grouped_roles t (walk_anc t []) [] (by simp)

theorem grouped_role_not_text {r : String} (h : r ∈ GROUPED_ROLES) :
    r ∉ TEXT_INPUT_ROLES := by
  simp only [GROUPED_ROLES, List.mem_cons, List.not_mem_nil, or_false] at h
  rcases h with rfl | rfl | rfl | rfl | rfl | rfl <;> decide

/-- C10.  In the output of `_scan_all_fields`, every entry is either a
text-like entry — role in the text-input set, no `multi` key, empty
option list — or a flushed grouped entry, whose role is outside the
text-input set, whose `multi` flag is present and `true` exactly for
role `listbox` and `false` for every other grouped role, and whose
option list is sorted ascending. -/
theorem scan_multi_and_sorted (t : AXNode) :
    ∀ f ∈ scan_all_fields t,
      (f.role ∈ TEXT_INPUT_ROLES ∧ f.multi = none ∧ f.options = []) ∨
      (f.role ∉ TEXT_INPUT_ROLES ∧ f.multi = some (f.role == "listbox") ∧
        f.options.Pairwise (fun a b => str_le a b = true)) := by
  intro f hf
  have hf2 : f ∈ raw_fields t :=
    (dedup_seen_sublist field_key (raw_fields t) []).subset hf
  simp only [raw_fields] at hf2
  rcases List.mem_append.1 hf2 with hT | hG
  · left
    simp only [text_fields_of] at hT
    rcases List.mem_filterMap.1 hT with ⟨p, _, he⟩
    split at he
    · exact absurd he (by simp)
    · split at he
      · rename_i hcond
        rw [Option.some_inj] at he
        subst he
        exact ⟨hcond.1, rfl, rfl⟩
      · exact absurd he (by simp)
  · right
    rcases List.mem_map.1 hG with ⟨e, he, rfl⟩
    have hrole := grouped_of_roles t e he
    exact ⟨grouped_role_not_text hrole, rfl, sort_strings_sorted _⟩

theorem scan_multi_and_sorted_witness :
    (fld_cities.role ∈ TEXT_INPUT_ROLES ∧ fld_cities.multi = none ∧ fld_cities.options = []) ∨
    (fld_cities.role ∉ TEXT_INPUT_ROLES ∧
      fld_cities.multi = some (fld_cities.role == "listbox") ∧
      fld_cities.options.Pairwise (fun a b => str_le a b = true)) :=
  scan_multi_and_sorted sample_tree fld_cities (by decide)

theorem find_canon_eq_mem {tlc o : String} :
    ∀ {opts : List String}, find_canon_eq tlc opts = some o → o ∈ opts := by
  intro opts
  induction opts with
  | nil => intro h; simp [find_canon_eq] at h
  | cons a as ih =>
    intro h
    simp only [find_canon_eq] at h
    split at h
    · rw [Option.some_inj] at h
      subst h
      exact List.mem_cons_self _ _
    · exact List.mem_cons_of_mem _ (ih h)

theorem find_substr_match_mem {tlc o : String} :
    ∀ {opts : List String}, find_substr_match tlc opts = some o → o ∈ opts := by
  intro opts
  induction opts with
  | nil => intro h; simp [find_substr_match] at h
  | cons a as ih =>
    intro h
    simp only [find_substr_match] at h
    split at h
    · rw [Option.some_inj] at h
      subst h
      exact List.mem_cons_self _ _
    · exact List.mem_cons_of_mem _ (ih h)

theorem overlap_fold_snd (tlc : String) :
    ∀ (l : List String) (b : Nat × Option String),
      (l.foldl (overlap_step tlc) b).2 = b.2 ∨
      ∃ o ∈ l, (l.foldl (overlap_step tlc) b).2 = some o := by
  intro l
  induction l with
  | nil => intro b; left; rfl
  | cons a as ih =>
    intro b
    simp only [List.foldl_cons]
    rcases ih (overlap_step tlc b a) with h | ⟨o, ho, he⟩
    · rw [h]
      unfold overlap_step
      split
      · right
        exact ⟨a, List.mem_cons_self _ _, rfl⟩
      · left; rfl
    · right
      exact ⟨o, List.mem_cons_of_mem _ ho, he⟩

theorem overlap_best_mem {tlc o : String} {opts : List String}
    (h : overlap_best tlc opts = some o) : o ∈ opts := by
  simp only [overlap_best] at h
  split at h
  · rcases overlap_fold_snd tlc opts (0, none) with h2 | ⟨o2, ho2, he2⟩
    · rw [show overlap_fold tlc opts = opts.foldl (overlap_step tlc) (0, none) from rfl,
        h2] at h
      exact absurd h (by simp)
    · rw [show overlap_fold tlc opts = opts.foldl (overlap_step tlc) (0, none) from rfl,
        he2] at h
      rw [Option.some_inj] at h
      subst h
      exact ho2
  · exact absurd h (by simp)

theorem headD_mem {l : List String} (h : l ≠ []) (d : String) : l.headD d ∈ l := by
  cases l with
  | nil => exact absurd rfl h
  | cons a as => exact List.mem_cons_self _ _

theorem best_option_tail_mem (t : String) {opts : List String} (h : opts ≠ []) :
    best_option_tail true t opts ∈ opts := by
  unfold best_option_tail
  cases h1 : find_canon_eq (canon t) opts with
  | some o => exact find_canon_eq_mem h1
  | none =>
    cases h2 : find_substr_match (canon t) opts with
    | some o => exact find_substr_match_mem h2
    | none =>
      cases h3 : overlap_best (canon t) opts with
      | some o => exact overlap_best_mem h3
      | none => exact headD_mem h t

theorem best_option_tail_fallback (fb : Bool) (t : String) (opts : List String)
    (h1 : find_canon_eq (canon t) opts = none)
    (h2 : find_substr_match (canon t) opts = none)
    (h3 : overlap_best (canon t) opts = none) :
    best_option_tail fb t opts = if fb then opts.headD t else t := by
  unfold best_option_tail
  rw [h1, h2, h3]

/-- C5 (amended).  For every token and non-empty option list,
ai-form.py's `_best_option` returns an element of the option list, and
when the synonym table, canonical-form equality, substring containment
and token overlap all fail it returns the first option of the list.
(main.py's inline variant instead returns the stripped token in that
last case — see the counterexample theorem.) -/
theorem best_option_ai_spec (token : String) (opts : List String) (h : opts ≠ []) :
    best_option_ai token opts ∈ opts ∧
    ((∀ v, find_synonym (lower_str (py_strip token)) = some v → v ∉ opts) →
      find_canon_eq (canon (py_strip token)) opts = none →
      find_substr_match (canon (py_strip token)) opts = none →
      overlap_best (canon (py_strip token)) opts = none →
      best_option_ai token opts = opts.headD (py_strip token)) := by
  have hne : opts.isEmpty = false := by
    cases opts with
    | nil => exact absurd rfl h
    | cons a as => rfl
  have hrw : best_option_ai token opts = best_option_core true (py_strip token) opts := by
    simp [best_option_ai, hne]
  rw [hrw]
  simp only [best_option_core]
  cases hs : find_synonym (lower_str (py_strip token)) with
  | some v =>
    dsimp only
    by_cases hv : v ∈ opts
    · rw [if_pos hv]
      exact ⟨hv, fun hsyn _ _ _ => absurd hv (hsyn v rfl)⟩
    · rw [if_neg hv]
      refine ⟨best_option_tail_mem _ h, fun _ h1 h2 h3 => ?_⟩
      rw [best_option_tail_fallback true _ opts h1 h2 h3]
      rfl
  | none =>
    dsimp only
    refine ⟨best_option_tail_mem _ h, fun _ h1 h2 h3 => ?_⟩
    rw [best_option_tail_fallback true _ opts h1 h2 h3]
    rfl

theorem best_option_ai_spec_witness :
    best_option_ai "zzz" ["Alpha"] ∈ (["Alpha"] : List String) ∧
    best_option_ai "zzz" ["Alpha"] = (["Alpha"] : List String).headD (py_strip "zzz") := by
  have h := best_option_ai_spec "zzz" ["Alpha"] (by decide)
  refine ⟨h.1, h.2 ?_ ?_ ?_ ?_⟩
  · intro v hv
    rw [show find_synonym (lower_str (py_strip "zzz")) = none by decide] at hv
    cases hv
  · decide
  · decide
  · decide

/-- C5's claim, as stated over main.py's inline `_best_option`, is
false: with token "zzz" and the non-empty option list ["Amsterdam"],
every heuristic fails and the function returns the token "zzz", which
is not an element of the option list (and not its first option). -/
theorem best_option_main_counterexample :
    best_option_main "zzz" ["Amsterdam"] = "zzz" ∧
    ("zzz" : String) ∉ (["Amsterdam"] : List String) := by
  decide

/-- C7 (amended).  For every container whose option set is exactly
{"Yes", "No"} and whose lower-cased label contains none of "what
cities", "available to work", "how did you hear", the radio value
derivation of `collect_form_labels` with a work-visa status of
"permanent resident" returns "Yes" — via the authorization branch of
`_map_resume_value` when the label carries an authorization keyword,
and via the Yes/No status fallback otherwise.  (The resolver is a pure
function, so the result is the same on every run with identical
inputs.)  Labels routed to the how-did-you-hear branch can instead
return the first option — see the counterexample theorem. -/
theorem yes_no_permanent_resident (label : String) (opts : List String) (r : ResumeAnswers)
    (hstatus : r.work_visa_status = "permanent resident")
    (hyes : "Yes" ∈ opts) (hno : "No" ∈ opts)
    (honly : ∀ o ∈ opts, o = "Yes" ∨ o = "No")
    (h1 : str_contains (lower_str label) "what cities" = false)
    (h2 : str_contains (lower_str label) "available to work" = false)
    (h3 : str_contains (lower_str label) "how did you hear" = false) :
    radio_derived_value label opts r = "Yes" := by
  have hopts : opts ≠ [] := List.ne_nil_of_mem hyes
  have hoptsif : (if opts = [] then ["Yes", "No"] else opts) = opts := if_neg hopts
  have hstat : lower_str r.work_visa_status = "permanent resident" := by
    rw [hstatus]; decide
  have hcit : contains_any (lower_str r.work_visa_status)
      ["citizen", "permanent", "no sponsorship", "authorized"] = true := by
    rw [hstat]; decide
  have hcit2 : contains_any (lower_str r.work_visa_status)
      ["citizen", "permanent", "authorized"] = true := by
    rw [hstat]; decide
  have hrt : ("radiogroup" : String) ∉ TEXT_INPUT_ROLES := by decide
  by_cases hauth : contains_any (lower_str label) AUTH_KEYWORDS = true
  · have hn1 : ("Yes, no restriction." : String) ∉ opts := by
      intro hmem
      rcases honly _ hmem with he | he <;> exact absurd he (by decide)
    have hn2 : ("Yes, no restriction" : String) ∉ opts := by
      intro hmem
      rcases honly _ hmem with he | he <;> exact absurd he (by decide)
    have hfp : first_present ["Yes, no restriction.", "Yes, no restriction", "Yes"] opts
        = some "Yes" := by
      unfold first_present
      rw [List.find?_cons_of_neg _ (by simpa using hn1),
          List.find?_cons_of_neg _ (by simpa using hn2),
          List.find?_cons_of_pos _ (by simpa using hyes)]
    have hmap : map_resume_value label "radiogroup" opts r = "Yes" := by
      simp only [map_resume_value, hauth, if_true, hopts, hcit, hfp]
      simp
    unfold radio_derived_value
    rw [hoptsif, hmap]
    simp
  · have hauthf : contains_any (lower_str label) AUTH_KEYWORDS = false :=
      Bool.eq_false_iff.mpr hauth
    have hmap0 : map_resume_value label "radiogroup" opts r = "" := by
      simp only [map_resume_value, hauthf, h1, h2, h3, hrt]
      simp
    unfold radio_derived_value
    rw [hoptsif, hmap0]
    simp only [hopts, hyes, hno, hcit2]
    simp [hopts, hyes, hno, hcit2]

theorem yes_no_permanent_resident_witness :
    radio_derived_value "Are you authorized to work?" ["Yes", "No"]
      { work_visa_status := "permanent resident" } = "Yes" :=
  yes_no_permanent_resident "Are you authorized to work?" ["Yes", "No"]
    { work_visa_status := "permanent resident" } rfl (by decide) (by decide)
    (by decide) (by decide) (by decide) (by decide)

/-- C7's claim, as stated for an arbitrary group label, is false: the
label "How did you hear about us?" with option list ["No", "Yes"]
(option set exactly {"Yes", "No"}) and work-visa status "permanent
resident" is routed to the how-did-you-hear branch of
`_map_resume_value`, whose fallback returns the first option "No", not
"Yes". -/
theorem yes_no_resolution_counterexample :
    radio_derived_value "How did you hear about us?" ["No", "Yes"]
      { work_visa_status := "permanent resident" } = "No" ∧
    radio_derived_value "How did you hear about us?" ["No", "Yes"]
      { work_visa_status := "permanent resident" } ≠ "Yes" := by
  decide

theorem find_focused_root (n : AXNode) (path : List AXNode) (hf : n.focused = true) :
    find_focused n path = some (n, path) := by
  cases n with
  | mk r nm v fo d ro cs =>
    simp only [AXNode.focused] at hf
    subst hf
    rfl

theorem walk_run_cons (th fl : Nat) (s : Option AXNode) (ss : List (Option AXNode))
    (st : WalkerState) :
    walk_run th (fl + 1) (s :: ss) st =
      (if (walk_step th st s).2 then walk_run th fl ss (walk_step th st s).1
       else (walk_step th st s).1) := rfl

theorem walk_step_root (th : Nat) (st : WalkerState) (n : AXNode) (hf : n.focused = true) :
    walk_step th st (some n) =
      (if is_editable_role n.role n then
        (let sl := stable_label_of n []
         let first := st.first_stable_label.getD sl
         let unique := set_insert st.unique_stable_labels sl
         let st1 := { st with first_stable_label := some first, unique_stable_labels := unique }
         if sl = first ∧ th ≤ unique.length ∧ 1 ≤ st.seen_labels.length then
           ({ st1 with
               shift_tabs_sent := st1.shift_tabs_sent + 1
               ended_reason := some "loop_detected"
               backtracked := true }, false)
         else
           advance_and_stuck (record_field st1 (focus_key n) sl) (some (focus_key n)))
      else advance_and_stuck st (some (focus_key n))) := by
  unfold walk_step
  rw [show (some n).bind (fun t => find_focused t []) = find_focused n [] from rfl,
      find_focused_root n [] hf]

theorem tb_focused (l : String) : (tb l).focused = true := rfl

theorem tb_role (l : String) : (tb l).role = "textbox" := rfl

theorem tb_name (l : String) : (tb l).name = l := rfl

theorem tb_value (l : String) : (tb l).value = "" := rfl

theorem tb_editable (l : String) : is_editable_role (tb l).role (tb l) = true := rfl

theorem nearest_container_tb (l : String) :
    nearest_container (tb l) [] = (tb l, norm_text l) := by
  unfold nearest_container
  rw [tb_role,
    if_neg (by decide : ¬ (("textbox" : String) = "combobox" ∨ ("textbox" : String) = "listbox"))]
  rfl

theorem stable_label_of_tb (l : String) (hl : norm_text l = l) (hne : l ≠ "") :
    stable_label_of (tb l) [] = l := by
  unfold stable_label_of
  rw [nearest_container_tb]
  simp only [tb_name, hl]
  rw [if_pos hne]
  unfold stable_label
  rw [tb_value]
  simp only [show norm_text "" = "" from rfl, if_pos rfl]
  exact hl

theorem focus_key_tb (l : String) (hl : norm_text l = l) :
    focus_key (tb l) = "textbox" ++ "|" ++ l := by
  unfold focus_key
  rw [tb_role, tb_name, hl]

theorem walk_step_tb (th : Nat) (st : WalkerState) (l : String)
    (hl : norm_text l = l) (hne : l ≠ "") :
    walk_step th st (some (tb l)) =
      (let first := st.first_stable_label.getD l
       let unique := set_insert st.unique_stable_labels l
       let st1 := { st with first_stable_label := some first, unique_stable_labels := unique }
       if l = first ∧ th ≤ unique.length ∧ 1 ≤ st.seen_labels.length then
         ({ st1 with
             shift_tabs_sent := st1.shift_tabs_sent + 1
             ended_reason := some "loop_detected"
             backtracked := true }, false)
       else
         advance_and_stuck (record_field st1 ("textbox" ++ "|" ++ l) l)
           (some ("textbox" ++ "|" ++ l))) := by
  rw [walk_step_root th st (tb l) (tb_focused l), if_pos (tb_editable l),
      stable_label_of_tb l hl hne, focus_key_tb l hl]

/-- C2.  On a focus trace whose stable labels are A, B, C and then A
again (three distinct non-empty normalized labels), with
`loop_detect_threshold = 3`, the walker stops with termination reason
`loop_detected`, issues exactly one reverse-focus (Shift+Tab) step, and
sends no further Tab advances (three Tabs were sent, one per completed
iteration, none on the detecting iteration). -/
theorem loop_detection_abca (a b c : String) (f : Nat)
    (ha : norm_text a = a) (hb : norm_text b = b) (hc : norm_text c = c)
    (hna : a ≠ "") (hnb : b ≠ "") (hnc : c ≠ "")
    (hab : a ≠ b) (hac : a ≠ c) (hbc : b ≠ c) :
    (walk_run 3 (f + 4) [some (tb a), some (tb b), some (tb c), some (tb a)]
        init_walker).ended_reason = some "loop_detected" ∧
    (walk_run 3 (f + 4) [some (tb a), some (tb b), some (tb c), some (tb a)]
        init_walker).shift_tabs_sent = 1 ∧
    (walk_run 3 (f + 4) [some (tb a), some (tb b), some (tb c), some (tb a)]
        init_walker).tabs_sent = 3 := by
  have hba : ¬ b = a := fun h => hab h.symm
  have hca : ¬ c = a := fun h => hac h.symm
  have hcb : ¬ c = b := fun h => hbc h.symm
  have kba : ¬ ("textbox|" ++ b : String) = "textbox|" ++ a :=
    fun h => hba ((str_append_left_cancel "textbox|" b a).1 h)
  have kca : ¬ ("textbox|" ++ c : String) = "textbox|" ++ a :=
    fun h => hca ((str_append_left_cancel "textbox|" c a).1 h)
  have kcb : ¬ ("textbox|" ++ c : String) = "textbox|" ++ b :=
    fun h => hcb ((str_append_left_cancel "textbox|" c b).1 h)
  have kab : ¬ ("textbox|" ++ a : String) = "textbox|" ++ b :=
    fun h => hab ((str_append_left_cancel "textbox|" a b).1 h)
  have kac : ¬ ("textbox|" ++ a : String) = "textbox|" ++ c :=
    fun h => hac ((str_append_left_cancel "textbox|" a c).1 h)
  have kbc : ¬ ("textbox|" ++ b : String) = "textbox|" ++ c :=
    fun h => hbc ((str_append_left_cancel "textbox|" b c).1 h)
  have e1 : walk_step 3 init_walker (some (tb a)) =
      ({ labels := [a], seen_keys := ["textbox|" ++ a], seen_labels := [a],
         first_stable_label := some a, unique_stable_labels := [a],
         last_key := some ("textbox|" ++ a), stuck_count := 0, tabs_sent := 1,
         shift_tabs_sent := 0, ended_reason := none, backtracked := false }, true) := by
    rw [walk_step_tb 3 init_walker a ha hna]
    simp [init_walker, set_insert, record_field, advance_and_stuck]
  have e2 : walk_step 3
      ({ labels := [a], seen_keys := ["textbox|" ++ a], seen_labels := [a],
         first_stable_label := some a, unique_stable_labels := [a],
         last_key := some ("textbox|" ++ a), stuck_count := 0, tabs_sent := 1,
         shift_tabs_sent := 0, ended_reason := none, backtracked := false } : WalkerState)
      (some (tb b)) =
      ({ labels := [a, b], seen_keys := ["textbox|" ++ a, "textbox|" ++ b],
         seen_labels := [a, b], first_stable_label := some a,
         unique_stable_labels := [a, b], last_key := some ("textbox|" ++ b),
         stuck_count := 0, tabs_sent := 2, shift_tabs_sent := 0, ended_reason := none,
         backtracked := false }, true) := by
    rw [walk_step_tb 3 _ b hb hnb]
    simp [set_insert, record_field, advance_and_stuck, hba, hab, kba, kab]
  have e3 : walk_step 3
      ({ labels := [a, b], seen_keys := ["textbox|" ++ a, "textbox|" ++ b],
         seen_labels := [a, b], first_stable_label := some a,
         unique_stable_labels := [a, b], last_key := some ("textbox|" ++ b),
         stuck_count := 0, tabs_sent := 2, shift_tabs_sent := 0, ended_reason := none,
         backtracked := false } : WalkerState) (some (tb c)) =
      ({ labels := [a, b, c],
         seen_keys := ["textbox|" ++ a, "textbox|" ++ b, "textbox|" ++ c],
         seen_labels := [a, b, c], first_stable_label := some a,
         unique_stable_labels := [a, b, c], last_key := some ("textbox|" ++ c),
         stuck_count := 0, tabs_sent := 3, shift_tabs_sent := 0, ended_reason := none,
         backtracked := false }, true) := by
    rw [walk_step_tb 3 _ c hc hnc]
    simp [set_insert, record_field, advance_and_stuck, hca, hcb, hac, hbc, kca, kcb, kac, kbc]
  have e4 : walk_step 3
      ({ labels := [a, b, c],
         seen_keys := ["textbox|" ++ a, "textbox|" ++ b, "textbox|" ++ c],
         seen_labels := [a, b, c], first_stable_label := some a,
         unique_stable_labels := [a, b, c], last_key := some ("textbox|" ++ c),
         stuck_count := 0, tabs_sent := 3, shift_tabs_sent := 0, ended_reason := none,
         backtracked := false } : WalkerState) (some (tb a)) =
      ({ labels := [a, b, c],
         seen_keys := ["textbox|" ++ a, "textbox|" ++ b, "textbox|" ++ c],
         seen_labels := [a, b, c], first_stable_label := some a,
         unique_stable_labels := [a, b, c], last_key := some ("textbox|" ++ c),
         stuck_count := 0, tabs_sent := 3, shift_tabs_sent := 1,
         ended_reason := some "loop_detected", backtracked := true }, false) := by
    rw [walk_step_tb 3 _ a ha hna]
    simp [set_insert]
  have hrun : walk_run 3 (f + 4) [some (tb a), some (tb b), some (tb c), some (tb a)]
      init_walker =
      ({ labels := [a, b, c],
         seen_keys := ["textbox|" ++ a, "textbox|" ++ b, "textbox|" ++ c],
         seen_labels := [a, b, c], first_stable_label := some a,
         unique_stable_labels := [a, b, c], last_key := some ("textbox|" ++ c),
         stuck_count := 0, tabs_sent := 3, shift_tabs_sent := 1,
         ended_reason := some "loop_detected", backtracked := true } : WalkerState) := by
    rw [show f + 4 = (f + 3) + 1 from rfl, walk_run_cons, e1]
    rw [show f + 3 = (f + 2) + 1 from rfl, walk_run_cons, e2]
    rw [show f + 2 = (f + 1) + 1 from rfl, walk_run_cons, e3]
    rw [walk_run_cons, e4]
    rfl
  rw [hrun]
  exact ⟨rfl, rfl, rfl⟩

theorem loop_detection_abca_witness :
    (walk_run 3 (296 + 4) [some (tb "A"), some (tb "B"), some (tb "C"), some (tb "A")]
        init_walker).ended_reason = some "loop_detected" ∧
    (walk_run 3 (296 + 4) [some (tb "A"), some (tb "B"), some (tb "C"), some (tb "A")]
        init_walker).shift_tabs_sent = 1 ∧
    (walk_run 3 (296 + 4) [some (tb "A"), some (tb "B"), some (tb "C"), some (tb "A")]
        init_walker).tabs_sent = 3 :=
  loop_detection_abca "A" "B" "C" 296 (by decide) (by decide) (by decide) (by decide)
    (by decide) (by decide) (by decide) (by decide) (by decide)

/-- C3.  On a focus trace where the focused node's `role|name` key
stays identical across three consecutive focus-advance attempts, the
walker (a total function — no exception is modelled or possible)
terminates with reason `focus_stuck`, having pressed Tab on each of the
four iterations; and whenever the observed key differs from the
previous iteration's key, the stuck counter resets to zero. -/
theorem stuck_detection_three (n : AXNode) (hf : n.focused = true) (f : Nat)
    (st : WalkerState) (k : String) (hk : st.last_key ≠ some k) :
    (walk_run 3 (f + 4) [some n, some n, some n, some n] init_walker).ended_reason
        = some "focus_stuck" ∧
    (walk_run 3 (f + 4) [some n, some n, some n, some n] init_walker).tabs_sent = 4 ∧
    (advance_and_stuck st (some k)).1.stuck_count = 0 := by
  have hreset : (advance_and_stuck st (some k)).1.stuck_count = 0 := by
    simp [advance_and_stuck, hk]
  by_cases hE : is_editable_role n.role n = true
  · have e1 : walk_step 3 init_walker (some n) =
        ({ labels := [stable_label_of n []], seen_keys := [focus_key n],
           seen_labels := [stable_label_of n []],
           first_stable_label := some (stable_label_of n []),
           unique_stable_labels := [stable_label_of n []],
           last_key := some (focus_key n), stuck_count := 0, tabs_sent := 1,
           shift_tabs_sent := 0, ended_reason := none, backtracked := false }, true) := by
      rw [walk_step_root 3 init_walker n hf, if_pos hE]
      simp [init_walker, set_insert, record_field, advance_and_stuck]
    have e2 : walk_step 3
        ({ labels := [stable_label_of n []], seen_keys := [focus_key n],
           seen_labels := [stable_label_of n []],
           first_stable_label := some (stable_label_of n []),
           unique_stable_labels := [stable_label_of n []],
           last_key := some (focus_key n), stuck_count := 0, tabs_sent := 1,
           shift_tabs_sent := 0, ended_reason := none, backtracked := false } : WalkerState)
        (some n) =
        ({ labels := [stable_label_of n []], seen_keys := [focus_key n],
           seen_labels := [stable_label_of n []],
           first_stable_label := some (stable_label_of n []),
           unique_stable_labels := [stable_label_of n []],
           last_key := some (focus_key n), stuck_count := 1, tabs_sent := 2,
           shift_tabs_sent := 0, ended_reason := none, backtracked := false }, true) := by
      rw [walk_step_root 3 _ n hf, if_pos hE]
      simp [set_insert, record_field, advance_and_stuck]
    have e3 : walk_step 3
        ({ labels := [stable_label_of n []], seen_keys := [focus_key n],
           seen_labels := [stable_label_of n []],
           first_stable_label := some (stable_label_of n []),
           unique_stable_labels := [stable_label_of n []],
           last_key := some (focus_key n), stuck_count := 1, tabs_sent := 2,
           shift_tabs_sent := 0, ended_reason := none, backtracked := false } : WalkerState)
        (some n) =
        ({ labels := [stable_label_of n []], seen_keys := [focus_key n],
           seen_labels := [stable_label_of n []],
           first_stable_label := some (stable_label_of n []),
           unique_stable_labels := [stable_label_of n []],
           last_key := some (focus_key n), stuck_count := 2, tabs_sent := 3,
           shift_tabs_sent := 0, ended_reason := none, backtracked := false }, true) := by
      rw [walk_step_root 3 _ n hf, if_pos hE]
      simp [set_insert, record_field, advance_and_stuck]
    have e4 : walk_step 3
        ({ labels := [stable_label_of n []], seen_keys := [focus_key n],
           seen_labels := [stable_label_of n []],
           first_stable_label := some (stable_label_of n []),
           unique_stable_labels := [stable_label_of n []],
           last_key := some (focus_key n), stuck_count := 2, tabs_sent := 3,
           shift_tabs_sent := 0, ended_reason := none, backtracked := false } : WalkerState)
        (some n) =
        ({ labels := [stable_label_of n []], seen_keys := [focus_key n],
           seen_labels := [stable_label_of n []],
           first_stable_label := some (stable_label_of n []),
           unique_stable_labels := [stable_label_of n []],
           last_key := some (focus_key n), stuck_count := 3, tabs_sent := 4,
           shift_tabs_sent := 0, ended_reason := some "focus_stuck",
           backtracked := false }, false) := by
      rw [walk_step_root 3 _ n hf, if_pos hE]
      simp [set_insert, record_field, advance_and_stuck]
    have hrun : walk_run 3 (f + 4) [some n, some n, some n, some n] init_walker =
        ({ labels := [stable_label_of n []], seen_keys := [focus_key n],
           seen_labels := [stable_label_of n []],
           first_stable_label := some (stable_label_of n []),
           unique_stable_labels := [stable_label_of n []],
           last_key := some (focus_key n), stuck_count := 3, tabs_sent := 4,
           shift_tabs_sent := 0, ended_reason := some "focus_stuck",
           backtracked := false } : WalkerState) := by
      rw [show f + 4 = (f + 3) + 1 from rfl, walk_run_cons, e1]
      rw [show f + 3 = (f + 2) + 1 from rfl, walk_run_cons, e2]
      rw [show f + 2 = (f + 1) + 1 from rfl, walk_run_cons, e3]
      rw [walk_run_cons, e4]
      rfl
    rw [hrun]
    exact ⟨rfl, rfl, hreset⟩
  · have e1 : walk_step 3 init_walker (some n) =
        ({ labels := [], seen_keys := [], seen_labels := [], first_stable_label := none,
           unique_stable_labels := [], last_key := some (focus_key n), stuck_count := 0,
           tabs_sent := 1, shift_tabs_sent := 0, ended_reason := none,
           backtracked := false }, true) := by
      rw [walk_step_root 3 init_walker n hf, if_neg hE]
      simp [init_walker, advance_and_stuck]
    have e2 : walk_step 3
        ({ labels := [], seen_keys := [], seen_labels := [], first_stable_label := none,
           unique_stable_labels := [], last_key := some (focus_key n), stuck_count := 0,
           tabs_sent := 1, shift_tabs_sent := 0, ended_reason := none,
           backtracked := false } : WalkerState) (some n) =
        ({ labels := [], seen_keys := [], seen_labels := [], first_stable_label := none,
           unique_stable_labels := [], last_key := some (focus_key n), stuck_count := 1,
           tabs_sent := 2, shift_tabs_sent := 0, ended_reason := none,
           backtracked := false }, true) := by
      rw [walk_step_root 3 _ n hf, if_neg hE]
      simp [advance_and_stuck]
    have e3 : walk_step 3
        ({ labels := [], seen_keys := [], seen_labels := [], first_stable_label := none,
           unique_stable_labels := [], last_key := some (focus_key n), stuck_count := 1,
           tabs_sent := 2, shift_tabs_sent := 0, ended_reason := none,
           backtracked := false } : WalkerState) (some n) =
        ({ labels := [], seen_keys := [], seen_labels := [], first_stable_label := none,
           unique_stable_labels := [], last_key := some (focus_key n), stuck_count := 2,
           tabs_sent := 3, shift_tabs_sent := 0, ended_reason := none,
           backtracked := false }, true) := by
      rw [walk_step_root 3 _ n hf, if_neg hE]
      simp [advance_and_stuck]
    have e4 : walk_step 3
        ({ labels := [], seen_keys := [], seen_labels := [], first_stable_label := none,
           unique_stable_labels := [], last_key := some (focus_key n), stuck_count := 2,
           tabs_sent := 3, shift_tabs_sent := 0, ended_reason := none,
           backtracked := false } : WalkerState) (some n) =
        ({ labels := [], seen_keys := [], seen_labels := [], first_stable_label := none,
           unique_stable_labels := [], last_key := some (focus_key n), stuck_count := 3,
           tabs_sent := 4, shift_tabs_sent := 0, ended_reason := some "focus_stuck",
           backtracked := false }, false) := by
      rw [walk_step_root 3 _ n hf, if_neg hE]
      simp [advance_and_stuck]
    have hrun : walk_run 3 (f + 4) [some n, some n, some n, some n] init_walker =
        ({ labels := [], seen_keys := [], seen_labels := [], first_stable_label := none,
           unique_stable_labels := [], last_key := some (focus_key n), stuck_count := 3,
           tabs_sent := 4, shift_tabs_sent := 0, ended_reason := some "focus_stuck",
           backtracked := false } : WalkerState) := by
      rw [show f + 4 = (f + 3) + 1 from rfl, walk_run_cons, e1]
      rw [show f + 3 = (f + 2) + 1 from rfl, walk_run_cons, e2]
      rw [show f + 2 = (f + 1) + 1 from rfl, walk_run_cons, e3]
      rw [walk_run_cons, e4]
      rfl
    rw [hrun]
    exact ⟨rfl, rfl, hreset⟩

theorem stuck_detection_three_witness :
    (walk_run 3 (296 + 4) [some (tb "Email"), some (tb "Email"), some (tb "Email"),
        some (tb "Email")] init_walker).ended_reason = some "focus_stuck" ∧
    (walk_run 3 (296 + 4) [some (tb "Email"), some (tb "Email"), some (tb "Email"),
        some (tb "Email")] init_walker).tabs_sent = 4 ∧
    (advance_and_stuck init_walker (some "textbox|Email")).1.stuck_count = 0 :=
  stuck_detection_three (tb "Email") rfl 296 init_walker "textbox|Email" (by simp [init_walker])
